import Mathlib

/-!
Shallow embedding of the `datafusion-c-api` repository: the DataFusion
query-execution surface (`src/include/datafusion.h`, exercised by
`src/test/test_datafusion.c`) and the Iceberg table-format surface
(exercised by `src/tests/iceberg_test.c`).

The repository ships only the C header (declarations) and its test
programs; the bodies behind the declarations are not part of the source
tree.  Every operation below is therefore modelled from the spec
(`spec.md`), faithful to its words, and checked against the concrete
expectations recorded in the test programs.
-/

namespace DataFusionC

/-- The `DATAFUSION_OK` status code, `#define DATAFUSION_OK 0` in
`src/include/datafusion.h`. -/
def DATAFUSION_OK : Int := 0

/-- The `DATAFUSION_ERROR` status code, `#define DATAFUSION_ERROR -1` in
`src/include/datafusion.h`. -/
def DATAFUSION_ERROR : Int := -1

/-- C truthiness: an `int` used as a boolean is true exactly when nonzero. -/
def cBool (i : Int) : Bool := i != 0

/-- A cell value of a tabular source: integers or strings, the two value
kinds appearing in the CSV fixture of `src/test/test_datafusion.c`. -/
inductive Value where
| vint (i : Int)
| vstr (s : String)
deriving DecidableEq

/-- Modelled from the spec: a registered tabular source (spec section 3,
"TableProvider" backing data) — column names from the header row plus the
data rows. -/
structure CsvTable where
  columns : List String
  rows : List (List Value)
deriving DecidableEq

/-- Modelled from the spec: the Execution Context, "process-local session
state = mapping from table name to TableProvider" (spec section 3). -/
structure DataFusionContext where
  tables : List (String × CsvTable)
deriving DecidableEq

/-- Modelled from the spec: `context_new() -> handle`, "starts with zero
registered tables" (spec section 4.5). -/
def datafusion_context_new : DataFusionContext := ⟨[]⟩

/-- Insert-or-replace in the name-to-provider mapping: "re-registering
under an existing name replaces it" (spec section 3). -/
def insertReplace (m : List (String × CsvTable)) (name : String) (t : CsvTable) :
    List (String × CsvTable) :=
  (m.filter (fun e => e.1 != name)) ++ [(name, t)]

/-- Modelled from the spec: `register_source(context, name, source)`
(spec section 4.5).  File I/O is external to the spec's core, so the
already-parsed outcome of reading the byte stream is the input: `none`
models an unreadable or malformed stream, in which case registration
fails and the context is unchanged; otherwise the mapping entry is
inserted or replaced. -/
def datafusion_register_csv (ctx : DataFusionContext) (name : String)
    (parsed : Option CsvTable) : Int × DataFusionContext :=
  match parsed with
  | none => (DATAFUSION_ERROR, ctx)
  | some t => (DATAFUSION_OK, ⟨insertReplace ctx.tables name t⟩)

/-- Modelled from the spec: the query AST produced by parse stage 1 of
the Planner/Executor pipeline (spec section 4.6), covering the query
shapes the spec and the test programs exercise: `SELECT *`,
`SELECT COUNT(*)` (single table and two-table cross source), and a
single-column projection under an integer comparison filter. -/
inductive Query where
| selectAll (table : String)
| selectCount (table : String)
| selectCountJoin (t1 t2 : String)
| selectColWhereGt (col : String) (table : String) (filterCol : String) (threshold : Int)
deriving DecidableEq

/-- The table names referenced by a query AST. -/
def Query.tableRefs : Query → List String
| .selectAll t => [t]
| .selectCount t => [t]
| .selectCountJoin t1 t2 => [t1, t2]
| .selectColWhereGt _ t _ _ => [t]

/-- Whether the query is an aggregate (COUNT) query. -/
def Query.isAggregate : Query → Bool
| .selectCount _ => true
| .selectCountJoin _ _ => true
| _ => false

/-- A columnar batch: "a fixed-row-count, fixed-column-count columnar
chunk with a shared schema" (spec section 3). -/
structure Batch where
  columns : List String
  rows : List (List Value)
deriving DecidableEq

/-- A query result: "an ordered sequence of columnar batches"
(spec section 3). -/
structure DataFusionResult where
  batches : List Batch
deriving DecidableEq

/-- Total row count of a result, summed over all its batches. -/
def totalRows (r : DataFusionResult) : Nat :=
  (r.batches.map (fun b => b.rows.length)).sum

/-- Index of a named column in a schema, for expression type-checking
(stage 3 of spec section 4.6: "fails on ... unknown columns"). -/
def colIndex (cols : List String) (name : String) : Option Nat :=
  cols.indexOf? name

/-- Comparison of a cell against an integer threshold, the `age > 30`
predicate shape of the filtered-query test. -/
def valueGtInt : Value → Int → Bool
| .vint i, k => k < i
| .vstr _, _ => false

/-- Modelled from the spec: stages 3 to 5 of the Planner/Executor
pipeline (spec section 4.6) — build the plan over the already resolved
providers, type-check column references, execute, and wrap the batches
in a result.  Aggregates yield exactly one output row for the implicit
single group. -/
def execPlan (ctx : DataFusionContext) : Query → Option DataFusionResult
| .selectAll t => do
    let tbl ← List.lookup t ctx.tables
    some ⟨[⟨tbl.columns, tbl.rows⟩]⟩
| .selectCount t => do
    let tbl ← List.lookup t ctx.tables
    some ⟨[⟨["count"], [[Value.vint tbl.rows.length]]⟩]⟩
| .selectCountJoin t1 t2 => do
    let a ← List.lookup t1 ctx.tables
    let b ← List.lookup t2 ctx.tables
    some ⟨[⟨["count"], [[Value.vint (a.rows.length * b.rows.length)]]⟩]⟩
| .selectColWhereGt c t f k => do
    let tbl ← List.lookup t ctx.tables
    let cj ← colIndex tbl.columns c
    let fj ← colIndex tbl.columns f
    let kept := tbl.rows.filter (fun row =>
      match row[fj]? with
      | some v => valueGtInt v k
      | none => false)
    some ⟨[⟨[c], kept.map (fun row => [row.getD cj (Value.vint 0)])⟩]⟩

/-- Stage 2 of the pipeline: "Resolve every table reference in the AST
against context's registered names" (spec section 4.6). -/
def resolvesAll (ctx : DataFusionContext) (q : Query) : Bool :=
  q.tableRefs.all (fun n => (List.lookup n ctx.tables).isSome)

/-- Modelled from the spec: `execute(context, sql_text) -> Result|failure`
(spec section 4.6).  The context is threaded through explicitly, mirroring
the C API's mutable context pointer; each pipeline stage is a hard failure
point returning `none` with no partial result, and "execution never
mutates the Context". -/
def datafusion_sql (ctx : DataFusionContext) (q : Query) :
    Option DataFusionResult × DataFusionContext :=
  (if resolvesAll ctx q then execPlan ctx q else none, ctx)

/-- Sequential reuse of one context for many `execute` calls, each call
starting from the context state the previous call left behind. -/
def runQueries (ctx : DataFusionContext) : List Query → DataFusionContext
| [] => ctx
| q :: qs => runQueries (datafusion_sql ctx q).2 qs

/-- `datafusion_result_batch_count` (spec section 4.7). -/
def datafusion_result_batch_count (r : DataFusionResult) : Int :=
  r.batches.length

/-- Modelled from the spec: `result_batch_num_rows(result, batch_index)`
returns the batch's row count, or the negative sentinel on an invalid
index (spec sections 4.7 and 6). -/
def datafusion_result_batch_num_rows (r : DataFusionResult) (i : Int) : Int :=
  if 0 ≤ i then
    match r.batches[i.toNat]? with
    | some b => (b.rows.length : Int)
    | none => DATAFUSION_ERROR
  else DATAFUSION_ERROR

/-- Modelled from the spec: `result_batch_num_columns(result, batch_index)`
returns the batch's column count, or the negative sentinel on an invalid
index (spec sections 4.7 and 6). -/
def datafusion_result_batch_num_columns (r : DataFusionResult) (i : Int) : Int :=
  if 0 ≤ i then
    match r.batches[i.toNat]? with
    | some b => (b.columns.length : Int)
    | none => DATAFUSION_ERROR
  else DATAFUSION_ERROR

/-- The result produced by `SELECT * FROM t` over a registered table:
one batch holding the table's columns and rows. -/
def selectAllResult (tbl : CsvTable) : DataFusionResult :=
  ⟨[⟨tbl.columns, tbl.rows⟩]⟩

/-- The result produced by `SELECT COUNT(*) FROM t` over a registered
table: one batch, one column, one row holding the row count. -/
def countResult (tbl : CsvTable) : DataFusionResult :=
  ⟨[⟨["count"], [[Value.vint tbl.rows.length]]⟩]⟩

/-- The first cell of the first row of the first batch of a result, the
place a scalar aggregate value lands. -/
def countValue (r : DataFusionResult) : Option Value := do
  let b ← r.batches[0]?
  let row ← b.rows[0]?
  row[0]?

/-- The 5-row, 5-column employees fixture, transcribed from
`test_csv_data` in `src/test/test_datafusion.c`. -/
def employeesTable : CsvTable :=
  { columns := ["id", "name", "age", "department", "salary"]
  , rows :=
    [ [Value.vint 1, Value.vstr "Alice", Value.vint 25, Value.vstr "Engineering", Value.vint 75000]
    , [Value.vint 2, Value.vstr "Bob", Value.vint 30, Value.vstr "Marketing", Value.vint 65000]
    , [Value.vint 3, Value.vstr "Carol", Value.vint 35, Value.vstr "Engineering", Value.vint 85000]
    , [Value.vint 4, Value.vstr "David", Value.vint 28, Value.vstr "Sales", Value.vint 55000]
    , [Value.vint 5, Value.vstr "Eve", Value.vint 32, Value.vstr "Engineering", Value.vint 80000] ] }

/-- The context after registering the employees fixture under the name
`employees`, as every query test in `src/test/test_datafusion.c` does. -/
def employeesCtx : DataFusionContext :=
  (datafusion_register_csv datafusion_context_new "employees" (some employeesTable)).2

/-- The logical type of a schema field: "Long(64-bit signed), Int(32-bit
signed), Date(days since epoch)" (spec section 3). -/
inductive IcebergFieldType where
| tLong
| tInt
| tDate
deriving DecidableEq

/-- A schema field (spec section 3): id, name, logical type, required. -/
structure IcebergField where
  fid : Nat
  fname : String
  ftype : IcebergFieldType
  required : Bool
deriving DecidableEq

/-- The schema builder: an ordered sequence of accumulated fields
(spec sections 3 and 4.1). -/
structure IcebergSchema where
  fields : List IcebergField
deriving DecidableEq

/-- `iceberg_schema_new`: a fresh builder with no fields. -/
def iceberg_schema_new : IcebergSchema := ⟨[]⟩

/-- Whether some accumulated field already uses the given id. -/
def schemaHasId (s : IcebergSchema) (id : Nat) : Bool :=
  s.fields.any (fun f => f.fid == id)

/-- Whether some accumulated field already uses the given name. -/
def schemaHasName (s : IcebergSchema) (n : String) : Bool :=
  s.fields.any (fun f => f.fname == n)

/-- Modelled from the spec: `add_field(id, name, type, required)` of the
schema builder (spec section 4.1): "Fails when id or name already present
in the builder's accumulated set"; on success the field is appended
preserving insertion order.  The boolean is the C return value of the
`iceberg_schema_add_*_field` functions, `true` on success as asserted by
`src/tests/iceberg_test.c`. -/
def iceberg_schema_add_field (s : IcebergSchema) (id : Nat) (n : String)
    (t : IcebergFieldType) (req : Bool) : Bool × IcebergSchema :=
  if schemaHasId s id || schemaHasName s n then (false, s)
  else (true, ⟨s.fields ++ [⟨id, n, t, req⟩]⟩)

/-- `iceberg_schema_add_long_field` from `src/include/datafusion.h`. -/
def iceberg_schema_add_long_field (s : IcebergSchema) (id : Nat) (n : String)
    (req : Bool) : Bool × IcebergSchema :=
  iceberg_schema_add_field s id n .tLong req

/-- `iceberg_schema_add_int_field` from `src/include/datafusion.h`. -/
def iceberg_schema_add_int_field (s : IcebergSchema) (id : Nat) (n : String)
    (req : Bool) : Bool × IcebergSchema :=
  iceberg_schema_add_field s id n .tInt req

/-- `iceberg_schema_add_date_field` from `src/include/datafusion.h`. -/
def iceberg_schema_add_date_field (s : IcebergSchema) (id : Nat) (n : String)
    (req : Bool) : Bool × IcebergSchema :=
  iceberg_schema_add_field s id n .tDate req

/-- A partition field (spec section 3): source schema field id, its own
partition field id, and a name; the only transform in the surface is Day. -/
structure IcebergPartitionField where
  sourceId : Nat
  fieldId : Nat
  pname : String
deriving DecidableEq

/-- The partition spec builder: an ordered sequence of partition fields
(spec sections 3 and 4.2). -/
structure IcebergPartitionSpec where
  fields : List IcebergPartitionField
deriving DecidableEq

/-- `iceberg_partition_spec_new`: a fresh builder with no fields. -/
def iceberg_partition_spec_new : IcebergPartitionSpec := ⟨[]⟩

/-- Modelled from the spec: `add_day_field(source_field_id,
partition_field_id, name)` (spec section 4.2): "Fails when
partition_field_id collides with a previously added partition field id.
Does NOT validate source_field_id against any schema — validation is
deferred to Table creation." -/
def iceberg_partition_spec_add_day_field (sp : IcebergPartitionSpec)
    (sourceId fieldId : Nat) (n : String) : Bool × IcebergPartitionSpec :=
  if sp.fields.any (fun f => f.fieldId == fieldId) then (false, sp)
  else (true, ⟨sp.fields ++ [⟨sourceId, fieldId, n⟩]⟩)

/-- Table metadata as recorded in a catalog entry (spec section 4.4). -/
structure IcebergTableMetadata where
  tname : String
  location : String
  tschema : IcebergSchema
  tspec : IcebergPartitionSpec
  tnamespaceName : String
deriving DecidableEq

/-- Modelled from the spec: the Catalog, "a namespaced registry mapping
(namespace, table name) to table metadata" (spec section 2), with its
backing store held as the entry list. -/
structure IcebergCatalog where
  entries : List ((String × String) × IcebergTableMetadata)
deriving DecidableEq

/-- Modelled from the spec: `iceberg_catalog_new_sql(database_url, name)`
opens a catalog over a pluggable store; reachability of the store is an
external I/O concern, so the opened catalog starts with the empty
registry, as in the `sqlite://` in-memory tests of
`src/tests/iceberg_test.c`. -/
def iceberg_catalog_new_sql (_databaseUrl _cname : String) : IcebergCatalog :=
  ⟨[]⟩

/-- Whether the catalog already holds an entry for (namespace, name). -/
def catalogHas (c : IcebergCatalog) (ns n : String) : Bool :=
  c.entries.any (fun e => e.1.1 == ns && e.1.2 == n)

/-- Validation (a) of spec section 4.4: every `source_field_id`
referenced by the partition spec exists in the schema. -/
def specRefsValid (schema : IcebergSchema) (sp : IcebergPartitionSpec) : Bool :=
  sp.fields.all (fun pf => schema.fields.any (fun f => f.fid == pf.sourceId))

/-- Modelled from the spec: `iceberg_table_create(name, location, schema,
partition_spec, catalog, namespace)` (spec section 4.4).  Validates that
every partition source id exists in the schema and that (namespace, name)
is not already in the catalog; on success the metadata is recorded in the
catalog's backing store, and "on any validation failure, no partial
metadata is written (all-or-nothing creation)". -/
def iceberg_table_create (n location : String) (schema : IcebergSchema)
    (sp : IcebergPartitionSpec) (catalog : IcebergCatalog) (ns : String) :
    Option IcebergTableMetadata × IcebergCatalog :=
  if !(specRefsValid schema sp) then (none, catalog)
  else if catalogHas catalog ns n then (none, catalog)
  else
    let t : IcebergTableMetadata := ⟨n, location, schema, sp, ns⟩
    (some t, ⟨catalog.entries ++ [((ns, n), t)]⟩)

/-- C1: for every execution context and every query referencing at least
one table name not registered in that context, `datafusion_sql` fails by
returning `none` (the model of the null pointer), never a partial or
empty-but-successful Result — even when other table references in the
same query resolve successfully. -/
theorem c1_unresolved_reference_fails (ctx : DataFusionContext) (q : Query)
    (h : ∃ n ∈ q.tableRefs, List.lookup n ctx.tables = none) :
    (datafusion_sql ctx q).1 = none := by
  obtain ⟨n, hmem, hnone⟩ := h
  have hres : resolvesAll ctx q = false := by
    simp only [resolvesAll, List.all_eq_false]
    exact ⟨n, hmem, by simp [hnone]⟩
  simp [datafusion_sql, hres]

/-- Witness for C1: with only `employees` registered,
`SELECT COUNT(*) FROM employees, nonexistent_table` fails even though the
`employees` reference resolves. -/
theorem c1_unresolved_reference_fails_witness :
    (datafusion_sql employeesCtx
      (Query.selectCountJoin "employees" "nonexistent_table")).1 = none :=
  c1_unresolved_reference_fails employeesCtx
    (Query.selectCountJoin "employees" "nonexistent_table")
    ⟨"nonexistent_table", by decide, by decide⟩

/-- C2: for every tabular source with N data rows and M columns
registered under a name, `SELECT * FROM name` returns a Result whose row
counts summed over all batches equal N and in which every batch has M
columns. -/
theorem c2_select_all_shape (ctx : DataFusionContext) (name : String)
    (tbl : CsvTable) (h : List.lookup name ctx.tables = some tbl) :
    (datafusion_sql ctx (Query.selectAll name)).1 = some (selectAllResult tbl) ∧
    totalRows (selectAllResult tbl) = tbl.rows.length ∧
    (selectAllResult tbl).batches.all
      (fun b => b.columns.length == tbl.columns.length) = true := by
  refine ⟨?_, ?_, ?_⟩
  · simp [datafusion_sql, resolvesAll, Query.tableRefs, h, execPlan, selectAllResult]
  · simp [totalRows, selectAllResult]
  · simp [selectAllResult]

/-- Witness for C2: the 5-row, 5-column employees fixture yields 5 rows
in total and a result whose single batch has the 5 fixture columns. -/
theorem c2_select_all_shape_witness :
    (datafusion_sql employeesCtx (Query.selectAll "employees")).1 =
      some (selectAllResult employeesTable) ∧
    totalRows (selectAllResult employeesTable) = 5 := by
  have h := c2_select_all_shape employeesCtx "employees" employeesTable (by decide)
  exact ⟨h.1, h.2.1⟩

/-- C3: `SELECT COUNT(*)` on a non-empty registered source yields exactly
one row and one column whose value is the source's row count, and every
aggregate query yields exactly one output row for its implicit single
group. -/
theorem c3_count_single_row (ctx : DataFusionContext) (name : String)
    (tbl : CsvTable) (h : List.lookup name ctx.tables = some tbl)
    (_hne : tbl.rows ≠ []) :
    (datafusion_sql ctx (Query.selectCount name)).1 = some (countResult tbl) ∧
    totalRows (countResult tbl) = 1 ∧
    datafusion_result_batch_count (countResult tbl) = 1 ∧
    datafusion_result_batch_num_rows (countResult tbl) 0 = 1 ∧
    datafusion_result_batch_num_columns (countResult tbl) 0 = 1 ∧
    countValue (countResult tbl) = some (Value.vint tbl.rows.length) ∧
    (∀ q : Query, q.isAggregate = true → ∀ r : DataFusionResult,
      (datafusion_sql ctx q).1 = some r → totalRows r = 1) := by
  refine ⟨?_, ?_, ?_, ?_, ?_, ?_, ?_⟩
  · simp [datafusion_sql, resolvesAll, Query.tableRefs, h, execPlan, countResult]
  · simp [totalRows, countResult]
  · simp [datafusion_result_batch_count, countResult]
  · simp [datafusion_result_batch_num_rows, countResult]
  · simp [datafusion_result_batch_num_columns, countResult]
  · simp [countValue, countResult]
  · intro q hq r hr
    simp only [datafusion_sql] at hr
    by_cases hres : resolvesAll ctx q = true
    · rw [if_pos hres] at hr
      cases q with
      | selectAll t => simp [Query.isAggregate] at hq
      | selectColWhereGt c t f k => simp [Query.isAggregate] at hq
      | selectCount t =>
        simp only [execPlan] at hr
        cases hl : List.lookup t ctx.tables with
        | none => rw [hl] at hr; simp at hr
        | some tb =>
          rw [hl] at hr
          simp only [Option.bind_eq_bind, Option.some_bind, Option.some.injEq] at hr
          subst hr
          simp [totalRows]
      | selectCountJoin t1 t2 =>
        simp only [execPlan] at hr
        cases hl1 : List.lookup t1 ctx.tables with
        | none => rw [hl1] at hr; simp at hr
        | some a =>
          rw [hl1] at hr
          cases hl2 : List.lookup t2 ctx.tables with
          | none => rw [hl2] at hr; simp at hr
          | some b =>
            rw [hl2] at hr
            simp only [Option.bind_eq_bind, Option.some_bind, Option.some.injEq] at hr
            subst hr
            simp [totalRows]
    · rw [if_neg hres] at hr
      cases hr

/-- Witness for C3: counting the employees fixture yields the single-cell
result holding 5. -/
theorem c3_count_single_row_witness :
    (datafusion_sql employeesCtx (Query.selectCount "employees")).1 =
      some (countResult employeesTable) ∧
    totalRows (countResult employeesTable) = 1 ∧
    countValue (countResult employeesTable) = some (Value.vint 5) := by
  have h := c3_count_single_row employeesCtx "employees" employeesTable
    (by decide) (by decide)
  exact ⟨h.1, h.2.1, h.2.2.2.2.2.1⟩

/-- C4: `SELECT name FROM employees WHERE age > 30` over the 5-row
fixture with ages 25, 30, 35, 28, 32 returns exactly 2 rows — those of
Carol (35) and Eve (32); the boundary age 30 is excluded. -/
theorem c4_filter_age_gt_30 :
    (datafusion_sql employeesCtx
      (Query.selectColWhereGt "name" "employees" "age" 30)).1 =
      some ⟨[⟨["name"], [[Value.vstr "Carol"], [Value.vstr "Eve"]]⟩]⟩ ∧
    totalRows ⟨[⟨["name"], [[Value.vstr "Carol"], [Value.vstr "Eve"]]⟩]⟩ = 2 := by
  exact ⟨by decide, by decide⟩

/-- C9: query execution never mutates the execution context: the context
returned by `datafusion_sql` is the input context, any sequence of
`execute` calls leaves the registered mapping untouched, and a later call
on the threaded context observes exactly the sources the original context
held. -/
theorem c9_execute_never_mutates_context (ctx : DataFusionContext) (q : Query) :
    (datafusion_sql ctx q).2 = ctx ∧
    (∀ qs : List Query, runQueries ctx qs = ctx) ∧
    (∀ q2 : Query,
      (datafusion_sql (datafusion_sql ctx q).2 q2).1 = (datafusion_sql ctx q2).1) := by
  refine ⟨rfl, ?_, fun q2 => rfl⟩
  intro qs
  induction qs with
  | nil => rfl
  | cons q1 qs ih => exact ih

/-- C5: adding a field whose id or name is already present among a schema
builder's accumulated fields fails (returns `false`) and leaves the
builder unchanged, for all three typed add-field operations. -/
theorem c5_duplicate_field_rejected (s : IcebergSchema) (id : Nat) (n : String)
    (req : Bool) (h : schemaHasId s id = true ∨ schemaHasName s n = true) :
    iceberg_schema_add_long_field s id n req = (false, s) ∧
    iceberg_schema_add_int_field s id n req = (false, s) ∧
    iceberg_schema_add_date_field s id n req = (false, s) := by
  have hc : (schemaHasId s id || schemaHasName s n) = true := by
    rcases h with h | h <;> simp [h]
  refine ⟨?_, ?_, ?_⟩ <;>
    simp [iceberg_schema_add_long_field, iceberg_schema_add_int_field,
      iceberg_schema_add_date_field, iceberg_schema_add_field, hc]

/-- A one-field schema builder used to witness duplicate rejection. -/
def schemaW : IcebergSchema :=
  (iceberg_schema_add_long_field iceberg_schema_new 1 "id" true).2

/-- Witness for C5: re-using id 1 of the one-field builder is rejected by
all three add operations, each leaving the builder unchanged. -/
theorem c5_duplicate_field_rejected_witness :
    (schemaHasId schemaW 1 = true ∨ schemaHasName schemaW "x" = true) ∧
    iceberg_schema_add_long_field schemaW 1 "x" true = (false, schemaW) ∧
    iceberg_schema_add_int_field schemaW 1 "x" true = (false, schemaW) ∧
    iceberg_schema_add_date_field schemaW 1 "x" true = (false, schemaW) :=
  ⟨Or.inl (by decide),
   c5_duplicate_field_rejected schemaW 1 "x" true (Or.inl (by decide))⟩

/-- C6: `iceberg_table_create` succeeds exactly when every partition
source field id exists in the schema and (namespace, name) is not already
in the catalog; on any validation failure the catalog it returns equals
the catalog it was given (all-or-nothing creation, no partial metadata
written). -/
theorem c6_table_create_all_or_nothing (n loc : String) (schema : IcebergSchema)
    (sp : IcebergPartitionSpec) (catalog : IcebergCatalog) (ns : String) :
    ((iceberg_table_create n loc schema sp catalog ns).1.isSome = true ↔
      (specRefsValid schema sp = true ∧ catalogHas catalog ns n = false)) ∧
    ((iceberg_table_create n loc schema sp catalog ns).1 = none →
      (iceberg_table_create n loc schema sp catalog ns).2 = catalog) := by
  unfold iceberg_table_create
  by_cases h1 : specRefsValid schema sp
  · by_cases h2 : catalogHas catalog ns n
    · simp [h1, h2]
    · simp [h1, h2]
  · simp only [Bool.not_eq_true] at h1
    simp [h1]

/-- The partition spec of the Iceberg tests: one day field over source
field 4 with partition field id 1000. -/
def specW : IcebergPartitionSpec :=
  (iceberg_partition_spec_add_day_field iceberg_partition_spec_new 4 1000 "day").2

/-- Witness for C6: creating a table whose partition spec references
source field 4 against an empty schema fails and writes nothing to the
catalog. -/
theorem c6_table_create_all_or_nothing_witness :
    (iceberg_table_create "orders" "/test/orders" iceberg_schema_new specW
      (iceberg_catalog_new_sql "sqlite://" "test") "test").1 = none ∧
    (iceberg_table_create "orders" "/test/orders" iceberg_schema_new specW
      (iceberg_catalog_new_sql "sqlite://" "test") "test").2 =
      iceberg_catalog_new_sql "sqlite://" "test" := by
  have h := c6_table_create_all_or_nothing "orders" "/test/orders"
    iceberg_schema_new specW (iceberg_catalog_new_sql "sqlite://" "test") "test"
  exact ⟨by decide, h.2 (by decide)⟩

/-- C7: `iceberg_partition_spec_add_day_field` fails exactly when the
given partition field id collides with a previously added one, and it
consults no schema, so adding a day field with an arbitrary source field
id to a fresh spec always succeeds. -/
theorem c7_add_day_field_collision_only (sp : IcebergPartitionSpec)
    (sourceId fieldId : Nat) (n : String) :
    ((iceberg_partition_spec_add_day_field sp sourceId fieldId n).1 = false ↔
      sp.fields.any (fun f => f.fieldId == fieldId) = true) ∧
    (iceberg_partition_spec_add_day_field iceberg_partition_spec_new
      sourceId fieldId n).1 = true := by
  constructor
  · by_cases h : sp.fields.any (fun f => f.fieldId == fieldId) = true <;>
      simp [iceberg_partition_spec_add_day_field, h]
  · simp [iceberg_partition_spec_add_day_field, iceberg_partition_spec_new]

/-- C8: the negative sentinel is negative; batch accessors called with an
out-of-range index (negative or at least the batch count) return the
sentinel rather than crashing, and with an in-range index return a
non-negative count. -/
theorem c8_batch_accessors_sentinel (r : DataFusionResult) (i : Int) :
    DATAFUSION_ERROR < 0 ∧
    ((i < 0 ∨ (r.batches.length : Int) ≤ i) →
      datafusion_result_batch_num_rows r i = DATAFUSION_ERROR ∧
      datafusion_result_batch_num_columns r i = DATAFUSION_ERROR) ∧
    ((0 ≤ i ∧ i < (r.batches.length : Int)) →
      0 ≤ datafusion_result_batch_num_rows r i ∧
      0 ≤ datafusion_result_batch_num_columns r i) := by
  refine ⟨by decide, ?_, ?_⟩
  · rintro (h | h)
    · constructor <;>
        simp [datafusion_result_batch_num_rows,
          datafusion_result_batch_num_columns, not_le.mpr h]
    · have h0 : (0 : Int) ≤ i := le_trans (Int.ofNat_nonneg _) h
      have hlen : r.batches.length ≤ i.toNat := by omega
      have hnone : r.batches[i.toNat]? = none := by
        rw [List.getElem?_eq_none_iff]
        exact hlen
      constructor <;>
        simp [datafusion_result_batch_num_rows,
          datafusion_result_batch_num_columns, h0, hnone]
  · rintro ⟨h0, hlt⟩
    have hlt2 : i.toNat < r.batches.length := by omega
    have hsome : r.batches[i.toNat]? = some (r.batches.get ⟨i.toNat, hlt2⟩) := by
      rw [List.getElem?_eq_some]
      exact ⟨hlt2, rfl⟩
    constructor <;>
      simp [datafusion_result_batch_num_rows,
        datafusion_result_batch_num_columns, h0, hsome]

/-- A one-batch result used to witness the index-range behaviors. -/
def resultW : DataFusionResult := countResult employeesTable

/-- Witness for C8: on the one-batch result, index 1 is out of range and
yields the sentinel while index 0 is in range and yields non-negative
counts. -/
theorem c8_batch_accessors_sentinel_witness :
    (datafusion_result_batch_num_rows resultW 1 = DATAFUSION_ERROR ∧
     datafusion_result_batch_num_columns resultW 1 = DATAFUSION_ERROR) ∧
    (0 ≤ datafusion_result_batch_num_rows resultW 0 ∧
     0 ≤ datafusion_result_batch_num_columns resultW 0) :=
  ⟨(c8_batch_accessors_sentinel resultW 1).2.1 (Or.inr (by decide)),
   (c8_batch_accessors_sentinel resultW 0).2.2 ⟨by decide, by decide⟩⟩

/-- C10: the add-field boundary operations signal success with the
boolean `true` and failure with `false`, while the status code
`DATAFUSION_OK` is 0 — false as a C boolean — and hence is not the
success value of these operations, contrary to the header comments that
document `DATAFUSION_OK` as their success return. -/
theorem c10_bool_success_convention :
    (∀ (s : IcebergSchema) (id : Nat) (n : String) (req : Bool),
      ((iceberg_schema_add_long_field s id n req).1 = true ↔
        (schemaHasId s id || schemaHasName s n) = false) ∧
      ((iceberg_schema_add_int_field s id n req).1 = true ↔
        (schemaHasId s id || schemaHasName s n) = false) ∧
      ((iceberg_schema_add_date_field s id n req).1 = true ↔
        (schemaHasId s id || schemaHasName s n) = false)) ∧
    (∀ (sp : IcebergPartitionSpec) (sourceId fieldId : Nat) (n : String),
      ((iceberg_partition_spec_add_day_field sp sourceId fieldId n).1 = true ↔
        sp.fields.any (fun f => f.fieldId == fieldId) = false)) ∧
    DATAFUSION_OK = 0 ∧ cBool DATAFUSION_OK = false ∧
    cBool DATAFUSION_OK ≠ true := by
  refine ⟨?_, ?_, rfl, by decide, by decide⟩
  · intro s id n req
    by_cases h : (schemaHasId s id || schemaHasName s n) = true
    · refine ⟨?_, ?_, ?_⟩ <;>
        simp [iceberg_schema_add_long_field, iceberg_schema_add_int_field,
          iceberg_schema_add_date_field, iceberg_schema_add_field, h]
    · simp only [Bool.not_eq_true] at h
      refine ⟨?_, ?_, ?_⟩ <;>
        simp [iceberg_schema_add_long_field, iceberg_schema_add_int_field,
          iceberg_schema_add_date_field, iceberg_schema_add_field, h]
  · intro sp sourceId fieldId n
    by_cases h : sp.fields.any (fun f => f.fieldId == fieldId) = true <;>
      simp [iceberg_partition_spec_add_day_field, h]

end DataFusionC
